import Mathlib

/-!
Verification of the AVR-FAT repository (FAT32 driver over an SD card in
SPI mode) against its natural-language specification.

The shallow embedding below translates the C source files
`src/source/sd_spi_data_access.c`, `src/source/FAT.c` and the unnamed
read/write/erase implementation (`sd_spi_rwe`) into Lean definitions.
Machine bytes (`uint8_t`) are `Nat` reduced `% 256`; 16-bit return codes
are `Nat`; buffers and card data sectors are functions `Nat → Nat`
yielding bytes; the byte stream received from the card over SPI after a
command's R1 response is a function `Nat → Nat` (the i-th byte that a
`SD_ReceiveByteSPI()` call would shift in).
-/

namespace AvrFat

/-! ### SD error codes (block layer)

The numeric values of the block-layer error flags live in headers that
are not part of the repository snapshot (`sd_spi_data_access.h`,
`sd_spi_rwe.h`).  Modelled from the spec: every operation returns a
16-bit code whose upper byte carries one-hot operation-level flag bits
and whose lower byte carries the raw R1 response; flags of one
operation class are distinct bits and may be OR'd together
(e.g. `SET_ERASE_START_ADDR_ERROR | R1_ERROR | r1`). -/

/-- Modelled from the spec: upper-byte flag, R1 response was non-zero. -/
def R1_ERROR : Nat := 0x0100

/-- Modelled from the spec: upper-byte flag, single-block read succeeded. -/
def READ_SUCCESS : Nat := 0x0200

/-- Modelled from the spec: upper-byte flag, Start Block Token 0xFE never
arrived within the bounded poll count. -/
def START_TOKEN_TIMEOUT : Nat := 0x0400

/-- Modelled from the spec: upper-byte flag for a CMD32 (set erase start
address) failure. -/
def SET_ERASE_START_ADDR_ERROR : Nat := 0x0200

/-- Modelled from the spec: upper-byte flag for a CMD33 (set erase end
address) failure. -/
def SET_ERASE_END_ADDR_ERROR : Nat := 0x0400

/-- Modelled from the spec: upper-byte flag for a CMD38 (erase) failure. -/
def ERASE_ERROR : Nat := 0x0800

/-- Modelled from the spec: upper-byte flag, card stayed busy past the
bounded wait after CMD38. -/
def ERASE_BUSY_TIMEOUT : Nat := 0x1000

/-- Modelled from the spec: upper-byte flag, erase completed. -/
def ERASE_SUCCESSFUL : Nat := 0x2000

/-- `BLOCK_LEN` from the SD headers: every data block is 512 bytes. -/
def BLOCK_LEN : Nat := 512

/-! ### SD_ReadSingleBlock (src/source/sd_spi_data_access.c lines 38-78,
mirrored by sd_ReadSingleBlock in the unnamed sd_spi_rwe file lines 53-98)

The card's behaviour is a parameter: `r1` is the R1 response byte that
`SD_GetR1()` returns after CMD17, and `stream i` is the i-th byte a
subsequent `SD_ReceiveByteSPI()` returns.  The function's observable
result is the 16-bit return code, the final contents of the caller's
512-byte buffer, whether chip-select was left deasserted (high), and how
many bytes were drawn from the stream. -/

structure SdReadResult where
  code : Nat
  buf : Nat → Nat
  csHigh : Bool
  consumed : Nat

/-- Start-Block-Token poll of `SD_ReadSingleBlock`: the first receive is
made before the loop, then each iteration receives again and increments
`timeout`, returning the timeout error once `timeout > 0xFE`; hence the
token is honoured iff it appears among receive indices 0..254. -/
def firstTokenIdx (stream : Nat → Nat) : Option Nat :=
  (List.range 255).find? (fun i => stream i % 256 == 0xFE)

def SD_ReadSingleBlock (r1 : Nat) (stream : Nat → Nat) (buf : Nat → Nat) :
    SdReadResult :=
  let r1b := r1 % 256
  if r1b > 0 then
    { code := R1_ERROR ||| r1b, buf := buf, csHigh := true, consumed := 0 }
  else
    match firstTokenIdx stream with
    | none =>
        { code := START_TOKEN_TIMEOUT ||| r1b, buf := buf, csHigh := true
          consumed := 256 }
    | some k =>
        { code := READ_SUCCESS ||| r1b
          buf := fun j => if j < BLOCK_LEN then stream (k + 1 + j) % 256 else buf j
          csHigh := true
          consumed := k + 1 + BLOCK_LEN + 2 + 1 }

/-! ### SD_EraseBlocks (src/source/sd_spi_data_access.c lines 203-240,
mirrored by sd_EraseBlocks in the unnamed sd_spi_rwe file lines 292-331)

`r1a`, `r1b`, `r1c` are the R1 responses to CMD32, CMD33 and CMD38;
`stream i` is the i-th byte received during the post-CMD38 busy wait.
The busy-wait loop receives bytes while they are 0, incrementing
`timeout` and returning `ERASE_BUSY_TIMEOUT | r1` once `timeout >
0xFFFE` — on that path the C code returns WITHOUT executing `CS_HIGH`,
so the model records chip-select still asserted (`csHigh := false`). -/

structure SdEraseResult where
  code : Nat
  csHigh : Bool

/-- Bounded scan of the busy-wait stream: index of the first non-zero
byte among the receives the loop performs before its timeout counter
trips, if any. -/
def busyScan (stream : Nat → Nat) : Nat → Nat → Option Nat
  | _, 0 => none
  | i, fuel + 1 =>
      if stream i % 256 ≠ 0 then some i else busyScan stream (i + 1) fuel

def SD_EraseBlocks (r1a r1b r1c : Nat) (stream : Nat → Nat) : SdEraseResult :=
  let a := r1a % 256
  if a > 0 then
    { code := SET_ERASE_START_ADDR_ERROR ||| R1_ERROR ||| a, csHigh := true }
  else
    let b := r1b % 256
    if b > 0 then
      { code := SET_ERASE_END_ADDR_ERROR ||| R1_ERROR ||| b, csHigh := true }
    else
      let c := r1c % 256
      if c > 0 then
        { code := ERASE_ERROR ||| R1_ERROR ||| c, csHigh := true }
      else
        match busyScan stream 0 65536 with
        | some _ => { code := ERASE_SUCCESSFUL, csHigh := true }
        | none => { code := ERASE_BUSY_TIMEOUT ||| c, csHigh := false }

lemma busyScan_zero (i : Nat) : ∀ fuel, busyScan (fun _ => 0) i fuel = none := by
  intro fuel
  induction fuel generalizing i with
  | zero => rfl
  | succ n ih => simpa [busyScan] using ih (i + 1)

lemma read_success_upper_byte (b : Nat) (hb : b < 256) :
    ((0x200 : Nat) ||| b) &&& 0xFF00 = 0x200 := by
  interval_cases b <;> rfl

/-- Concrete receive stream for read witnesses: Start Block Token 0xFE
arrives as the fourth received byte, all other bytes are 0x37. -/
def rsbStreamEx : Nat → Nat := fun i => if i = 3 then 0xFE else 0x37

/-- C7: `SD_ReadSingleBlock` issues CMD17 and (1) returns
`R1_ERROR | r1` when the R1 response is non-zero; (2) otherwise returns
`START_TOKEN_TIMEOUT | r1` when the Start Block Token 0xFE does not
arrive within the bounded poll count; (3) otherwise reads exactly 512
bytes into the buffer, discards two CRC bytes plus one drain byte
(consuming `k + 1 + 512 + 2 + 1` stream bytes when the token is the
k-th byte), and returns `READ_SUCCESS | r1`. -/
theorem SD_ReadSingleBlock_contract (r1 : Nat) (stream buf : Nat → Nat)
    (h : r1 < 256) :
    (r1 ≠ 0 → SD_ReadSingleBlock r1 stream buf =
      { code := R1_ERROR ||| r1, buf := buf, csHigh := true, consumed := 0 })
    ∧ (r1 = 0 → firstTokenIdx stream = none →
        SD_ReadSingleBlock r1 stream buf =
          { code := START_TOKEN_TIMEOUT, buf := buf, csHigh := true
            consumed := 256 })
    ∧ (r1 = 0 → ∀ k, firstTokenIdx stream = some k →
        (SD_ReadSingleBlock r1 stream buf).code = READ_SUCCESS
        ∧ (∀ j, j < BLOCK_LEN →
            (SD_ReadSingleBlock r1 stream buf).buf j = stream (k + 1 + j) % 256)
        ∧ (∀ j, BLOCK_LEN ≤ j →
            (SD_ReadSingleBlock r1 stream buf).buf j = buf j)
        ∧ (SD_ReadSingleBlock r1 stream buf).consumed = k + 1 + BLOCK_LEN + 2 + 1) := by
  have hm : r1 % 256 = r1 := Nat.mod_eq_of_lt h
  refine ⟨?_, ?_, ?_⟩
  · intro hr
    have hp : r1 > 0 := Nat.pos_of_ne_zero hr
    simp [SD_ReadSingleBlock, hm, hp]
  · intro hr hnone
    subst hr
    simp [SD_ReadSingleBlock, hnone]
  · intro hr k hk
    subst hr
    refine ⟨?_, ?_, ?_, ?_⟩
    · simp [SD_ReadSingleBlock, hk]
    · intro j hj
      simp [SD_ReadSingleBlock, hk, hj]
    · intro j hj
      simp [SD_ReadSingleBlock, hk, Nat.not_lt.mpr hj]
    · simp [SD_ReadSingleBlock, hk]

theorem SD_ReadSingleBlock_contract_witness :
    (0 : Nat) < 256 ∧ firstTokenIdx rsbStreamEx = some 3 ∧
    (SD_ReadSingleBlock 0 rsbStreamEx (fun _ => 0)).code = READ_SUCCESS ∧
    (SD_ReadSingleBlock 0 rsbStreamEx (fun _ => 0)).consumed = 3 + 1 + BLOCK_LEN + 2 + 1 := by
  have h := (SD_ReadSingleBlock_contract 0 rsbStreamEx (fun _ => 0)
    (by decide)).2.2 rfl 3 (by decide)
  exact ⟨by decide, by decide, h.1, h.2.2.2⟩

/-- C10: when `SD_ReadSingleBlock` returns an error code (upper byte
`R1_ERROR` or `START_TOKEN_TIMEOUT`, as the repository's
`SD_PrintReadError` decodes codes via `err & 0xFF00`), the caller's
buffer is left entirely unmodified; conversely, if the buffer changed
at all, the code's upper byte is `READ_SUCCESS`. -/
theorem SD_ReadSingleBlock_buffer_frame (r1 : Nat) (stream buf : Nat → Nat) :
    (((SD_ReadSingleBlock r1 stream buf).code &&& 0xFF00 = R1_ERROR ∨
      (SD_ReadSingleBlock r1 stream buf).code &&& 0xFF00 = START_TOKEN_TIMEOUT) →
      (SD_ReadSingleBlock r1 stream buf).buf = buf)
    ∧ ((SD_ReadSingleBlock r1 stream buf).buf ≠ buf →
        (SD_ReadSingleBlock r1 stream buf).code &&& 0xFF00 = READ_SUCCESS) := by
  have hb : r1 % 256 < 256 := Nat.mod_lt _ (by omega)
  by_cases hp : r1 % 256 > 0
  · constructor
    · intro _
      simp [SD_ReadSingleBlock, hp]
    · intro hne
      exact absurd (by simp [SD_ReadSingleBlock, hp]) hne
  · cases hk : firstTokenIdx stream with
    | none =>
        constructor
        · intro _
          simp [SD_ReadSingleBlock, hp, hk]
        · intro hne
          exact absurd (by simp [SD_ReadSingleBlock, hp, hk]) hne
    | some k =>
        have hu := read_success_upper_byte (r1 % 256) hb
        have hcode : (SD_ReadSingleBlock r1 stream buf).code = 0x200 ||| r1 % 256 := by
          simp [SD_ReadSingleBlock, hp, hk, READ_SUCCESS]
        constructor
        · intro hor
          exfalso
          rw [hcode, hu] at hor
          simp only [R1_ERROR, START_TOKEN_TIMEOUT] at hor
          rcases hor with hor | hor <;> omega
        · intro _
          rw [hcode, hu]
          rfl

theorem SD_ReadSingleBlock_buffer_frame_witness :
    (SD_ReadSingleBlock 1 (fun _ => 0) (fun _ => 0)).code &&& 0xFF00 = R1_ERROR ∧
    (SD_ReadSingleBlock 1 (fun _ => 0) (fun _ => 0)).buf = (fun _ => 0) := by
  refine ⟨by decide, ?_⟩
  exact (SD_ReadSingleBlock_buffer_frame 1 (fun _ => 0) (fun _ => 0)).1
    (Or.inl (by decide))

/-- C1: the claim that every return path of every block-layer operation
deasserts chip-select is violated by the code: when the R1 responses to
CMD32/CMD33/CMD38 are all 0 and the card holds the data-out line low
past the bounded busy wait, `SD_EraseBlocks` returns
`ERASE_BUSY_TIMEOUT | r1` without executing `CS_HIGH`, leaving
chip-select asserted (low). -/
theorem SD_EraseBlocks_busy_timeout_cs_low :
    (SD_EraseBlocks 0 0 0 (fun _ => 0)).code = ERASE_BUSY_TIMEOUT ∧
    (SD_EraseBlocks 0 0 0 (fun _ => 0)).csHigh = false := by
  have h := busyScan_zero 0 65536
  refine ⟨?_, ?_⟩ <;> simp [SD_EraseBlocks, h]

/-! ### FAT-level return codes

The numeric values live in the missing header `fat.h`; the claims only
need the codes to be distinct, so they are modelled as an enumeration.
Modelled from the spec: the FAT-level and mount-level error codes
`SUCCESS`, `END_OF_DIRECTORY`, `INVALID_FILE_NAME`, `FILE_NOT_FOUND`,
`INVALID_DIR_NAME`, `DIR_NOT_FOUND`, `CORRUPT_FAT_ENTRY`,
`END_OF_FILE`, `BOOT_SECTOR_VALID`, `BOOT_SECTOR_NOT_FOUND`,
`NOT_BOOT_SECTOR`, `INVALID_BYTES_PER_SECTOR`,
`INVALID_SECTORS_PER_CLUSTER` are pairwise distinct. -/

inductive FatCode where
  | SUCCESS
  | END_OF_DIRECTORY
  | INVALID_FILE_NAME
  | FILE_NOT_FOUND
  | INVALID_DIR_NAME
  | DIR_NOT_FOUND
  | CORRUPT_FAT_ENTRY
  | END_OF_FILE
  | BOOT_SECTOR_VALID
  | BOOT_SECTOR_NOT_FOUND
  | NOT_BOOT_SECTOR
  | INVALID_BYTES_PER_SECTOR
  | INVALID_SECTORS_PER_CLUSTER
deriving DecidableEq, Repr

structure BiosParameterBlock where
  bytesPerSector : Nat
  sectorsPerCluster : Nat
  reservedSectorCount : Nat
  numberOfFats : Nat
  fatSize32 : Nat
  rootCluster : Nat
  bootSectorAddress : Nat
  dataRegionFirstSector : Nat
deriving DecidableEq, Repr

/-! ### FAT_GetBiosParameterBlock (src/source/FAT.c lines 1048-1117)

`bootAddr` is the value `fat_FindBootSector()` returned (a `uint32_t`,
hence reduced `% 2^32`); `sec i` is byte `i` of the sector read at that
address.  The C function mutates the caller's record field by field, so
the embedding threads an initial record `bpb0` and returns the code
together with the final record. -/

def FAT_GetBiosParameterBlock (bootAddr : Nat) (sec : Nat → Nat)
    (bpb0 : BiosParameterBlock) : FatCode × BiosParameterBlock :=
  let byte := fun i => sec i % 256
  let addr := bootAddr % 4294967296
  let bpb1 := { bpb0 with bootSectorAddress := addr }
  if addr ≠ 0xFFFFFFFF then
    if byte 510 = 0x55 ∧ byte 511 = 0xAA then
      let bps := byte 12 <<< 8 ||| byte 11
      let bpb2 := { bpb1 with bytesPerSector := bps }
      if bps ≠ 512 then (FatCode.INVALID_BYTES_PER_SECTOR, bpb2)
      else
        let spc := byte 13
        let bpb3 := { bpb2 with sectorsPerCluster := spc }
        if spc ≠ 1 ∧ spc ≠ 2 ∧ spc ≠ 4 ∧ spc ≠ 8 ∧ spc ≠ 16 ∧ spc ≠ 32 ∧
            spc ≠ 64 ∧ spc ≠ 128 then
          (FatCode.INVALID_SECTORS_PER_CLUSTER, bpb3)
        else
          let rsc := byte 15 <<< 8 ||| byte 14
          let nf := byte 16
          let fs := byte 39 <<< 24 ||| byte 38 <<< 16 ||| byte 37 <<< 8 ||| byte 36
          let rc := byte 47 <<< 24 ||| byte 46 <<< 16 ||| byte 45 <<< 8 ||| byte 44
          (FatCode.BOOT_SECTOR_VALID,
            { bytesPerSector := bps, sectorsPerCluster := spc
              reservedSectorCount := rsc, numberOfFats := nf, fatSize32 := fs
              rootCluster := rc, bootSectorAddress := addr
              dataRegionFirstSector := (addr + rsc + nf * fs) % 4294967296 })
    else (FatCode.NOT_BOOT_SECTOR, bpb1)
  else (FatCode.BOOT_SECTOR_NOT_FOUND, bpb1)

/-- C6: the mount routine's full case analysis — `BOOT_SECTOR_NOT_FOUND`
when the boot-sector search returned the all-ones sentinel;
`NOT_BOOT_SECTOR` when bytes 510..511 are not `0x55, 0xAA`;
`INVALID_BYTES_PER_SECTOR` when the little-endian 16-bit value at
offsets 11..12 is not 512; `INVALID_SECTORS_PER_CLUSTER` when byte 13
is not in {1,2,4,8,16,32,64,128}; otherwise the geometry record is
populated with `dataRegionFirstSector = bootSectorAddress +
reservedSectorCount + numberOfFats * fatSize32` (as 32-bit arithmetic)
and the code is `BOOT_SECTOR_VALID`. -/
theorem FAT_GetBiosParameterBlock_contract (bootAddr : Nat) (sec : Nat → Nat)
    (bpb0 : BiosParameterBlock) :
    (bootAddr % 4294967296 = 0xFFFFFFFF →
      (FAT_GetBiosParameterBlock bootAddr sec bpb0).1 = FatCode.BOOT_SECTOR_NOT_FOUND)
    ∧ (bootAddr % 4294967296 ≠ 0xFFFFFFFF →
        ¬(sec 510 % 256 = 0x55 ∧ sec 511 % 256 = 0xAA) →
        (FAT_GetBiosParameterBlock bootAddr sec bpb0).1 = FatCode.NOT_BOOT_SECTOR)
    ∧ (bootAddr % 4294967296 ≠ 0xFFFFFFFF →
        sec 510 % 256 = 0x55 → sec 511 % 256 = 0xAA →
        (sec 12 % 256) <<< 8 ||| sec 11 % 256 ≠ 512 →
        (FAT_GetBiosParameterBlock bootAddr sec bpb0).1 = FatCode.INVALID_BYTES_PER_SECTOR)
    ∧ (bootAddr % 4294967296 ≠ 0xFFFFFFFF →
        sec 510 % 256 = 0x55 → sec 511 % 256 = 0xAA →
        (sec 12 % 256) <<< 8 ||| sec 11 % 256 = 512 →
        sec 13 % 256 ∉ ([1, 2, 4, 8, 16, 32, 64, 128] : List Nat) →
        (FAT_GetBiosParameterBlock bootAddr sec bpb0).1 = FatCode.INVALID_SECTORS_PER_CLUSTER)
    ∧ (bootAddr % 4294967296 ≠ 0xFFFFFFFF →
        sec 510 % 256 = 0x55 → sec 511 % 256 = 0xAA →
        (sec 12 % 256) <<< 8 ||| sec 11 % 256 = 512 →
        sec 13 % 256 ∈ ([1, 2, 4, 8, 16, 32, 64, 128] : List Nat) →
        FAT_GetBiosParameterBlock bootAddr sec bpb0 =
          (FatCode.BOOT_SECTOR_VALID,
            { bytesPerSector := 512
              sectorsPerCluster := sec 13 % 256
              reservedSectorCount := (sec 15 % 256) <<< 8 ||| sec 14 % 256
              numberOfFats := sec 16 % 256
              fatSize32 := (sec 39 % 256) <<< 24 ||| (sec 38 % 256) <<< 16 |||
                (sec 37 % 256) <<< 8 ||| sec 36 % 256
              rootCluster := (sec 47 % 256) <<< 24 ||| (sec 46 % 256) <<< 16 |||
                (sec 45 % 256) <<< 8 ||| sec 44 % 256
              bootSectorAddress := bootAddr % 4294967296
              dataRegionFirstSector := (bootAddr % 4294967296 +
                ((sec 15 % 256) <<< 8 ||| sec 14 % 256) +
                sec 16 % 256 * ((sec 39 % 256) <<< 24 ||| (sec 38 % 256) <<< 16 |||
                  (sec 37 % 256) <<< 8 ||| sec 36 % 256)) % 4294967296 })) := by
  refine ⟨?_, ?_, ?_, ?_, ?_⟩
  · intro hs
    simp only [FAT_GetBiosParameterBlock]
    split_ifs <;> first | rfl | (exfalso; tauto)
  · intro hs hsig
    simp only [FAT_GetBiosParameterBlock]
    split_ifs <;> first | rfl | (exfalso; tauto)
  · intro hs h55 hAA hbps
    simp only [FAT_GetBiosParameterBlock]
    split_ifs <;> first | rfl | (exfalso; tauto)
  · intro hs h55 hAA hbps hspc
    simp only [List.mem_cons, List.not_mem_nil, or_false] at hspc
    simp only [FAT_GetBiosParameterBlock]
    split_ifs <;> first | rfl | (exfalso; tauto)
  · intro hs h55 hAA hbps hspc
    simp only [List.mem_cons, List.not_mem_nil, or_false] at hspc
    simp only [FAT_GetBiosParameterBlock]
    split_ifs <;> first | (exfalso; tauto) | (rw [hbps])

/-- Concrete boot sector for the mount witness: geometry of the spec's
end-to-end scenario 1 (512 bytes/sector, 8 sectors/cluster, 32 reserved
sectors, 2 FATs of 1024 sectors, root cluster 2). -/
def bootSecEx : Nat → Nat := fun i =>
  if i = 510 then 0x55 else if i = 511 then 0xAA
  else if i = 12 then 2
  else if i = 13 then 8
  else if i = 14 then 32
  else if i = 16 then 2
  else if i = 37 then 4
  else if i = 44 then 2
  else 0

theorem FAT_GetBiosParameterBlock_contract_witness :
    (FAT_GetBiosParameterBlock 8192 bootSecEx
      { bytesPerSector := 0, sectorsPerCluster := 0, reservedSectorCount := 0
        numberOfFats := 0, fatSize32 := 0, rootCluster := 0
        bootSectorAddress := 0, dataRegionFirstSector := 0 }).1 =
      FatCode.BOOT_SECTOR_VALID ∧
    (FAT_GetBiosParameterBlock 8192 bootSecEx
      { bytesPerSector := 0, sectorsPerCluster := 0, reservedSectorCount := 0
        numberOfFats := 0, fatSize32 := 0, rootCluster := 0
        bootSectorAddress := 0, dataRegionFirstSector := 0 }).2.dataRegionFirstSector =
      10272 := by
  have h := (FAT_GetBiosParameterBlock_contract 8192 bootSecEx
    { bytesPerSector := 0, sectorsPerCluster := 0, reservedSectorCount := 0
      numberOfFats := 0, fatSize32 := 0, rootCluster := 0
      bootSectorAddress := 0, dataRegionFirstSector := 0 }).2.2.2.2
    (by decide) (by decide) (by decide) (by decide) (by decide)
  rw [h]
  exact ⟨rfl, by decide⟩

/-! ### Next-sector computation (claim C3)

When a long-name group runs past the current sector, the directory
walkers fetch the following sector.  `FAT_PrintCurrentDirectory`
(FAT.c lines 411-416) and `FAT_PrintFile` (lines 743-746) compare the
sector-in-cluster index against `sectorsPerCluster - 1` and multiply
the next cluster by `sectorsPerCluster`; `FAT_SetCurrentDirectory`
(lines 186-190) instead uses `bytesPerSector` in both places.
`nextClusterFromFat` stands for the value `pvt_GetNextCluster`
returns. -/

def nextSectorNumberLsCat (bpb : BiosParameterBlock)
    (currentSectorNumberInCluster absoluteCurrentSectorNumber
      nextClusterFromFat : Nat) : Nat :=
  if currentSectorNumberInCluster ≥ bpb.sectorsPerCluster - 1 then
    bpb.dataRegionFirstSector + (nextClusterFromFat - 2) * bpb.sectorsPerCluster
  else 1 + absoluteCurrentSectorNumber

def nextSectorNumberCd (bpb : BiosParameterBlock)
    (currentSectorNumberInCluster absoluteCurrentSectorNumber
      nextClusterFromFat : Nat) : Nat :=
  if currentSectorNumberInCluster ≥ bpb.bytesPerSector - 1 then
    bpb.dataRegionFirstSector + (nextClusterFromFat - 2) * bpb.bytesPerSector
  else 1 + absoluteCurrentSectorNumber

/-- Modelled from the spec's words (§4.5), for comparison with the code:
if the current sector is the last sector of the current cluster (index
within the cluster equals `sectorsPerCluster - 1`), the next sector is
the first sector of the cluster returned by the FAT chain walker;
otherwise it is the current absolute sector number plus one. -/
def specNextSectorNumber (bpb : BiosParameterBlock)
    (currentSectorNumberInCluster absoluteCurrentSectorNumber
      nextClusterFromFat : Nat) : Nat :=
  if currentSectorNumberInCluster = bpb.sectorsPerCluster - 1 then
    bpb.dataRegionFirstSector + (nextClusterFromFat - 2) * bpb.sectorsPerCluster
  else absoluteCurrentSectorNumber + 1

/-- Geometry used for the C3 failing input: 512-byte sectors, 2 sectors
per cluster, data region starting at sector 10272. -/
def bpbC3 : BiosParameterBlock :=
  { bytesPerSector := 512, sectorsPerCluster := 2, reservedSectorCount := 32
    numberOfFats := 2, fatSize32 := 1024, rootCluster := 2
    bootSectorAddress := 8192, dataRegionFirstSector := 10272 }

/-- C3: at the failing input — sector index 1 is the last sector of a
2-sector cluster, current absolute sector 10273, FAT chain walker
returning cluster 9 — the spec's rule (and the ls/cat code) demand
sector 10286, the first sector of cluster 9, but `FAT_SetCurrentDirectory`
compares the index against `bytesPerSector - 1 = 511` and therefore
advances to sector 10274 instead: cd's next-sector computation deviates
from the claimed rule, while ls and cat satisfy it. -/
theorem nextSector_cd_bug :
    specNextSectorNumber bpbC3 1 10273 9 = 10286 ∧
    nextSectorNumberLsCat bpbC3 1 10273 9 = 10286 ∧
    nextSectorNumberCd bpbC3 1 10273 9 = 10274 ∧
    nextSectorNumberCd bpbC3 1 10273 9 ≠ specNextSectorNumber bpbC3 1 10273 9 := by
  refine ⟨rfl, rfl, rfl, by decide⟩

/-! ### Cluster-chain traversal of FAT_PrintFile (claim C2)

`fat c` stands for the value `pvt_GetNextCluster(c, bpb)` returns.
`pvt_PrintFatFile` (FAT.c lines 1595-1634) streams the file's contents
cluster by cluster in a do-while loop that only stops at
`END_OF_CLUSTER`; the `clusCnt < 5` condition sits in `FAT_PrintFile`'s
directory-search do-while loop (lines 663-1001). -/

/-- `END_OF_CLUSTER` is defined in the missing header `fat.h`.
Modelled from the spec: FAT entry values ≥ 0x0FFFFFF8 denote
end-of-chain, and callers compare the chain walker's result against
this sentinel. -/
def END_OF_CLUSTER : Nat := 0x0FFFFFF8

/-- Clusters visited by `pvt_PrintFatFile`'s streaming loop: visit the
cluster, then continue while the FAT entry is not `END_OF_CLUSTER`;
`fuel` bounds the recursion. -/
def pvtPrintFatFileClusters (fat : Nat → Nat) : Nat → Nat → List Nat
  | _, 0 => []
  | c, fuel + 1 =>
      c :: (if fat c ≠ END_OF_CLUSTER then
        pvtPrintFatFileClusters fat (fat c) fuel else [])

/-- Clusters visited by `FAT_PrintFile`'s directory-search loop:
`clusCnt` starts at 0 and is incremented at the top of each iteration;
the loop continues while the next cluster is not `END_OF_CLUSTER` and
`clusCnt < 5`. -/
def printFileSearchClusters (fat : Nat → Nat) : Nat → Nat → Nat → List Nat
  | _, _, 0 => []
  | c, cnt, fuel + 1 =>
      c :: (if fat c ≠ END_OF_CLUSTER ∧ cnt + 1 < 5 then
        printFileSearchClusters fat (fat c) (cnt + 1) fuel else [])

/-- FAT for the C2 counterexample: the file starting at cluster 2 owns
the six-cluster chain 2 → 3 → 4 → 5 → 6 → 7 → end-of-chain. -/
def fatC2 : Nat → Nat := fun c => if c = 7 then END_OF_CLUSTER else c + 1

/-- C2 counterexample: for the six-cluster file of `fatC2`,
`pvt_PrintFatFile` visits (and therefore streams) all six clusters, not
only the first five — the claimed 5-cluster cap on file streaming does
not exist. -/
theorem printFile_streams_sixth_cluster :
    pvtPrintFatFileClusters fatC2 2 100 = [2, 3, 4, 5, 6, 7] ∧
    ¬(pvtPrintFatFileClusters fatC2 2 100).length ≤ 5 := by
  refine ⟨by decide, by decide⟩

lemma printFileSearchClusters_length (fat : Nat → Nat) :
    ∀ fuel c cnt, cnt < 5 →
      (printFileSearchClusters fat c cnt fuel).length ≤ 5 - cnt := by
  intro fuel
  induction fuel with
  | zero => intro c cnt _; simp [printFileSearchClusters]
  | succ n ih =>
      intro c cnt hcnt
      simp only [printFileSearchClusters]
      by_cases hc : fat c ≠ END_OF_CLUSTER ∧ cnt + 1 < 5
      · rw [if_pos hc]
        have := ih (fat c) (cnt + 1) hc.2
        simp only [List.length_cons]
        omega
      · rw [if_neg hc]
        simp only [List.length_cons, List.length_nil]
        omega

/-- C2 amended: the `clusCnt < 5` bound caps the directory-search loop
of `FAT_PrintFile` — it searches at most 5 clusters of the current
directory for the name — while `pvt_PrintFatFile`'s content streaming
is uncapped: on the six-cluster file of `fatC2` it visits all six
clusters of the chain. -/
theorem printFile_search_capped_streaming_uncapped :
    (∀ fat c fuel, (printFileSearchClusters fat c 0 fuel).length ≤ 5) ∧
    (pvtPrintFatFileClusters fatC2 2 100).length = 6 := by
  constructor
  · intro fat c fuel
    simpa using printFileSearchClusters_length fat fuel c 0 (by omega)
  · decide

/-! ### Name validation of FAT_PrintFile (claim C5)

FAT.c lines 617-639: the empty name, a leading space and an all-space
name are rejected with `INVALID_FILE_NAME`, but the illegal-character
loop returns `INVALID_DIR_NAME`.  Names are the C string's byte list
(no interior NUL). -/

/-- Byte values of the illegal characters \\ / : * ? " < > | -/
def illegalCharacters : List Nat := [92, 47, 58, 42, 63, 34, 60, 62, 124]

def FAT_PrintFile_nameCheck (name : List Nat) : Option FatCode :=
  if name = [] then some FatCode.INVALID_FILE_NAME
  else if name.head? = some 32 then some FatCode.INVALID_FILE_NAME
  else if name.any (fun ch => ch ∈ illegalCharacters) then
    some FatCode.INVALID_DIR_NAME
  else if name.all (fun ch => ch = 32) then some FatCode.INVALID_FILE_NAME
  else none

/-- `FAT_PrintFile` with the directory-search phase abstracted as
`search`: a name failing validation short-circuits to the validation
code, so the directory is never walked on those paths. -/
def FAT_PrintFile_model (name : List Nat) (search : FatCode) : FatCode :=
  match FAT_PrintFile_nameCheck name with
  | some e => e
  | none => search

/-- C5 counterexample: the name "a*" contains an illegal character, yet
`FAT_PrintFile` rejects it with `INVALID_DIR_NAME`, not
`INVALID_FILE_NAME` as claimed. -/
theorem printFile_illegal_char_wrong_code :
    FAT_PrintFile_model [97, 42] FatCode.SUCCESS = FatCode.INVALID_DIR_NAME ∧
    FatCode.INVALID_DIR_NAME ≠ FatCode.INVALID_FILE_NAME := by
  refine ⟨rfl, by decide⟩

/-- C5 amended: `FAT_PrintFile` rejects an empty name, a name beginning
with a space, and an all-space name with `INVALID_FILE_NAME`, but a
name containing one of \\ / : * ? " < > | (that is non-empty and does
not begin with a space) with `INVALID_DIR_NAME`; in every rejected case
the result does not depend on the directory contents (the search
outcome). -/
theorem printFile_name_validation (name : List Nat) (s1 s2 : FatCode) :
    ((name = [] ∨ name.head? = some 32) →
      FAT_PrintFile_model name s1 = FatCode.INVALID_FILE_NAME)
    ∧ (name ≠ [] → name.head? ≠ some 32 →
        name.any (fun ch => ch ∈ illegalCharacters) = true →
        FAT_PrintFile_model name s1 = FatCode.INVALID_DIR_NAME)
    ∧ (name ≠ [] → name.all (fun ch => ch = 32) = true →
        FAT_PrintFile_model name s1 = FatCode.INVALID_FILE_NAME)
    ∧ (FAT_PrintFile_nameCheck name ≠ none →
        FAT_PrintFile_model name s1 = FAT_PrintFile_model name s2) := by
  refine ⟨?_, ?_, ?_, ?_⟩
  · intro hor
    rcases hor with h | h
    · simp [FAT_PrintFile_model, FAT_PrintFile_nameCheck, h]
    · by_cases hn : name = []
      · simp [FAT_PrintFile_model, FAT_PrintFile_nameCheck, hn]
      · simp [FAT_PrintFile_model, FAT_PrintFile_nameCheck, hn, h]
  · intro hn hh hill
    simp [FAT_PrintFile_model, FAT_PrintFile_nameCheck, hn, hh, hill]
  · intro hn hall
    have hh : name.head? = some 32 := by
      cases name with
      | nil => exact absurd rfl hn
      | cons a t =>
          have := List.all_eq_true.mp hall a (List.mem_cons_self a t)
          simp only [decide_eq_true_eq] at this
          simp [this]
    by_cases hn' : name = []
    · exact absurd hn' hn
    · simp [FAT_PrintFile_model, FAT_PrintFile_nameCheck, hn', hh]
  · intro hne
    cases hc : FAT_PrintFile_nameCheck name with
    | none => exact absurd hc hne
    | some e => simp [FAT_PrintFile_model, hc]

theorem printFile_name_validation_witness :
    FAT_PrintFile_model [32, 97] FatCode.SUCCESS = FatCode.INVALID_FILE_NAME := by
  exact (printFile_name_validation [32, 97] FatCode.SUCCESS FatCode.SUCCESS).1
    (Or.inr (by decide))

/-! ### Short-name matching in FAT_SetCurrentDirectory (claim C4)

FAT.c lines 264-286: when the user name has fewer than 9 characters and
the entry is a directory, the code copies the first `strlen(name)`
bytes of the entry's 8.3 name field into `sn`, NUL-terminates it, and
declares a match iff `strcmp(tempDir, sn) == 0` — no check that the
remaining name bytes (indices len..7) are spaces. -/

/-- C-string value of a byte list: the bytes before the first NUL. -/
def cString (l : List Nat) : List Nat := l.takeWhile (fun b => b != 0)

/-- The short-name comparison of `FAT_SetCurrentDirectory`: `entry k`
is byte `k` of the 32-byte directory entry (the 8.3 name field occupies
bytes 0..10); `name` is the user name's C-string byte list. -/
def cdShortNameMatch (name : List Nat) (entry : Nat → Nat) : Bool :=
  cString name == cString ((List.range name.length).map (fun k => entry k % 256))

/-- Directory entry whose stored 8.3 name is "ABC" (bytes 65 66 67
followed by five padding spaces and a blank extension). -/
def entryC4 : Nat → Nat := fun k =>
  if k = 0 then 65 else if k = 1 then 66 else if k = 2 then 67 else 32

lemma cString_eq_self {l : List Nat} (h : ∀ b ∈ l, b ≠ 0) : cString l = l := by
  induction l with
  | nil => rfl
  | cons a t ih =>
      have ha : a ≠ 0 := h a (List.mem_cons_self a t)
      have ht := ih (fun b hb => h b (List.mem_cons_of_mem a hb))
      unfold cString at ht ⊢
      simp [List.takeWhile_cons, ha, ht]

/-- C4 counterexample: the two-character user name "AB" matches the
stored short name "ABC" in `FAT_SetCurrentDirectory` even though entry
byte 2 is 67 ('C'), not a space — a strict prefix of a longer stored
short name does match, contradicting the claimed rule. -/
theorem cd_short_name_prefix_matches :
    cdShortNameMatch [65, 66] entryC4 = true ∧ entryC4 2 = 67 ∧ (67 : Nat) ≠ 32 := by
  refine ⟨by decide, rfl, by decide⟩

/-- C4 amended: in `FAT_SetCurrentDirectory` a (dotless, ≤ 8 character)
user name matches a short-name entry iff the name equals the entry's
bytes 0..len−1 byte-exactly; the bytes len..7 are not examined at all,
so a strict prefix of a longer stored short name does match.  (The
hypotheses say the name and the examined entry bytes contain no NUL, as
C strings cannot.) -/
theorem cd_short_name_match_iff (name : List Nat) (entry : Nat → Nat)
    (hname : ∀ b ∈ name, b ≠ 0)
    (hentry : ∀ k, k < name.length → entry k % 256 ≠ 0) :
    cdShortNameMatch name entry = true ↔
      (List.range name.length).map (fun k => entry k % 256) = name := by
  have h1 : cString name = name := cString_eq_self hname
  have h2 : cString ((List.range name.length).map (fun k => entry k % 256)) =
      (List.range name.length).map (fun k => entry k % 256) := by
    apply cString_eq_self
    intro b hb
    obtain ⟨k, hk, hkb⟩ := List.mem_map.mp hb
    exact hkb ▸ hentry k (List.mem_range.mp hk)
  unfold cdShortNameMatch
  rw [h1, h2, beq_iff_eq]
  exact eq_comm

theorem cd_short_name_match_iff_witness :
    cdShortNameMatch [65, 66] entryC4 = true := by
  exact (cd_short_name_match_iff [65, 66] entryC4 (by decide) (by decide)).mpr
    (by decide)

/-! ### Current-directory cursor operations (claims C8, C9)

The cursor's five fields follow the C struct `FatCurrentDirectory`;
name and path strings are lists of characters. -/

structure FatCurrentDirectory where
  FATFirstCluster : Nat
  shortName : List Char
  longName : List Char
  shortParentPath : List Char
  longParentPath : List Char
deriving DecidableEq, Repr

/-- First-cluster field of a short-name entry at byte offset `pos`:
high word at bytes 20..21, low word at bytes 26..27, little-endian
(FAT.c lines 1223-1230). -/
def entryFirstCluster (sector : Nat → Nat) (pos : Nat) : Nat :=
  (sector (pos + 21) % 256) <<< 24 ||| (sector (pos + 20) % 256) <<< 16 |||
    (sector (pos + 27) % 256) <<< 8 ||| sector (pos + 26) % 256

/-- Parent first-cluster read by `pvt_SetCurrentDirectoryToParent` from
the current directory's first sector: bytes 52..53 (high word) and
58..59 (low word) of the ".." entry (FAT.c lines 1176-1182). -/
def dotDotCluster (sector : Nat → Nat) : Nat :=
  (sector 53 % 256) <<< 24 ||| (sector 52 % 256) <<< 16 |||
    (sector 59 % 256) <<< 8 ||| sector 58 % 256

/-- pvt_SetCurrentDirectoryToChild (FAT.c lines 1220-1254): commit the
cursor transition into the matched child directory.  `sector` holds the
sector containing the matched short-name entry at offset `pos`;
`nameStr` is the user-typed name.  Path concatenations and the
conditional '/' separator follow the C statement order (both
`longName[0]`/`shortName[0]` tests read the pre-update names). -/
def pvt_SetCurrentDirectoryToChild (c : FatCurrentDirectory)
    (sector : Nat → Nat) (pos : Nat) (nameStr : List Char) :
    FatCurrentDirectory :=
  let snLen := if nameStr.length < 8 then nameStr.length else 8
  let sn := (List.range snLen).map (fun k => Char.ofNat (sector (pos + k) % 256))
  let lpp0 := c.longParentPath ++ c.longName
  let spp0 := c.shortParentPath ++ c.shortName
  let lpp := if c.longName.head? ≠ some '/' then lpp0 ++ ['/'] else lpp0
  let spp := if c.shortName.head? ≠ some '/' then spp0 ++ ['/'] else spp0
  { FATFirstCluster := entryFirstCluster sector pos
    shortName := sn, longName := nameStr
    shortParentPath := spp, longParentPath := lpp }

/-- Suffix of a path after its last '/', as computed by `strrchr + 1`. -/
def afterLastSlash (l : List Char) : List Char :=
  (l.reverse.takeWhile (fun ch => ch != '/')).reverse

/-- Prefix of a path through its last '/', as produced by
`strlcpy(dst, tmp, (lastSlash + 2) - tmp)`. -/
def throughLastSlash (l : List Char) : List Char :=
  l.take (l.length - (afterLastSlash l).length)

/-- pvt_SetCurrentDirectoryToParent (FAT.c lines 1164-1217).  At the
root directory nothing changes; when the ".." entry stores cluster 0
the parent is the root and the cursor is normalised to the root shape;
otherwise the `strlcpy(tmp, path, strlen(path))` calls copy all but the
last character of each parent path (dropping the trailing '/'), and
`strrchr` splits at the last remaining '/'. -/
def pvt_SetCurrentDirectoryToParent (c : FatCurrentDirectory)
    (sector : Nat → Nat) (rootCluster : Nat) : FatCurrentDirectory :=
  if c.FATFirstCluster = rootCluster then c
  else if dotDotCluster sector = 0 then
    { FATFirstCluster := rootCluster, shortName := ['/'], longName := ['/']
      shortParentPath := [], longParentPath := [] }
  else
    let tmpS := c.shortParentPath.dropLast
    let tmpL := c.longParentPath.dropLast
    { FATFirstCluster := dotDotCluster sector
      shortName := afterLastSlash tmpS
      longName := afterLastSlash tmpL
      shortParentPath := throughLastSlash tmpS
      longParentPath := throughLastSlash tmpL }

/-- pvt_CheckIllegalName (FAT.c lines 1129-1161): non-zero (illegal)
for the empty name, a leading space, an illegal character, or an
all-space name. -/
def pvt_CheckIllegalName (name : List Char) : Bool :=
  if name = [] then true
  else if name.head? = some ' ' then true
  else if name.any (fun ch =>
    ch ∈ (['\\', '/', ':', '*', '?', '"', '<', '>', '|'] : List Char)) then true
  else if name.all (fun ch => ch = ' ') then true
  else false

/-- FAT_SetCurrentDirectory (FAT.c lines 65-293) with the child-search
phase abstracted as `search`: illegal names are rejected, "." is a
no-op, ".." delegates to `pvt_SetCurrentDirectoryToParent` and returns
`SUCCESS`. -/
def FAT_SetCurrentDirectory_model (c : FatCurrentDirectory)
    (name : List Char) (sector : Nat → Nat) (rootCluster : Nat)
    (search : FatCode × FatCurrentDirectory) : FatCode × FatCurrentDirectory :=
  if pvt_CheckIllegalName name then (FatCode.INVALID_DIR_NAME, c)
  else if name = ['.'] then (FatCode.SUCCESS, c)
  else if name = ['.', '.'] then
    (FatCode.SUCCESS, pvt_SetCurrentDirectoryToParent c sector rootCluster)
  else search

/-- C9: when the cursor is at the root directory, `cd("..")` returns
`SUCCESS` and leaves all five cursor fields unchanged. -/
theorem cd_dotdot_at_root (c : FatCurrentDirectory) (sector : Nat → Nat)
    (rootCluster : Nat) (search : FatCode × FatCurrentDirectory)
    (h : c.FATFirstCluster = rootCluster) :
    FAT_SetCurrentDirectory_model c ['.', '.'] sector rootCluster search =
      (FatCode.SUCCESS, c) := by
  have hill : pvt_CheckIllegalName ['.', '.'] = false := by decide
  have hdot : (['.', '.'] : List Char) = ['.'] ↔ False := by
    simp only [iff_false]
    decide
  simp [FAT_SetCurrentDirectory_model, hill, hdot,
    pvt_SetCurrentDirectoryToParent, h]

/-- Concrete root cursor used by witnesses. -/
def cursorRootEx : FatCurrentDirectory :=
  { FATFirstCluster := 2, shortName := ['/'], longName := ['/']
    shortParentPath := [], longParentPath := [] }

theorem cd_dotdot_at_root_witness :
    FAT_SetCurrentDirectory_model cursorRootEx ['.', '.'] (fun _ => 0) 2
      (FatCode.END_OF_DIRECTORY, cursorRootEx) = (FatCode.SUCCESS, cursorRootEx) := by
  exact cd_dotdot_at_root cursorRootEx (fun _ => 0) 2
    (FatCode.END_OF_DIRECTORY, cursorRootEx) rfl

lemma takeWhile_append_all {α : Type} (p : α → Bool) (l₁ l₂ : List α)
    (h : ∀ a ∈ l₁, p a = true) :
    (l₁ ++ l₂).takeWhile p = l₁ ++ l₂.takeWhile p := by
  induction l₁ with
  | nil => rfl
  | cons a t ih =>
      have ha := h a (List.mem_cons_self a t)
      have ht := ih (fun b hb => h b (List.mem_cons_of_mem a hb))
      simp [List.takeWhile_cons, ha, ht]

lemma afterLastSlash_append (p n : List Char)
    (hp : p.getLast? = some '/') (hn : '/' ∉ n) :
    afterLastSlash (p ++ n) = n := by
  unfold afterLastSlash
  have hall : ∀ a ∈ n.reverse, (a != '/') = true := by
    intro a ha
    have hmem : a ∈ n := List.mem_reverse.mp ha
    have hne : a ≠ '/' := fun hEq => hn (hEq ▸ hmem)
    simpa [bne_iff_ne] using hne
  have hrev : p.reverse.head? = some '/' := by
    rw [List.head?_reverse]
    exact hp
  rw [List.reverse_append, takeWhile_append_all _ _ _ hall]
  cases hpr : p.reverse with
  | nil => rw [hpr] at hrev; cases hrev
  | cons a t =>
      rw [hpr] at hrev
      have ha : a = '/' := by
        simpa using hrev
      subst ha
      simp [List.takeWhile_cons]

lemma throughLastSlash_append (p n : List Char)
    (hp : p.getLast? = some '/') (hn : '/' ∉ n) :
    throughLastSlash (p ++ n) = p := by
  unfold throughLastSlash
  rw [afterLastSlash_append p n hp hn, List.length_append,
    Nat.add_sub_cancel, List.take_left]

/-- C8: committing a child directory with `pvt_SetCurrentDirectoryToChild`
(the effect of a successful `cd(A)`) and then running `cd("..")`
restores the cursor exactly — all five fields.  Hypotheses: the child's
first cluster is not the root cluster; the ".." entry of the child
directory stores the parent's first cluster (0 when the parent is the
root), i.e. the filesystem is consistent; and the starting cursor is
well-formed (root shape at the root; otherwise non-empty slash-free
names, parent paths ending in '/', and a first cluster that is neither
the root's nor 0). -/
theorem cd_child_then_parent_roundtrip
    (c : FatCurrentDirectory) (rootCluster : Nat)
    (sector1 : Nat → Nat) (pos : Nat) (nameStr : List Char)
    (sector2 : Nat → Nat) (search : FatCode × FatCurrentDirectory)
    (hchild : entryFirstCluster sector1 pos ≠ rootCluster)
    (hdot : dotDotCluster sector2 =
      if c.FATFirstCluster = rootCluster then 0 else c.FATFirstCluster)
    (hwf : (c.FATFirstCluster = rootCluster ∧ c.shortName = ['/'] ∧
            c.longName = ['/'] ∧ c.shortParentPath = [] ∧ c.longParentPath = [])
        ∨ (c.FATFirstCluster ≠ rootCluster ∧ c.FATFirstCluster ≠ 0 ∧
            c.shortName ≠ [] ∧ '/' ∉ c.shortName ∧
            c.shortParentPath.getLast? = some '/' ∧
            c.longName ≠ [] ∧ '/' ∉ c.longName ∧
            c.longParentPath.getLast? = some '/')) :
    FAT_SetCurrentDirectory_model
      (pvt_SetCurrentDirectoryToChild c sector1 pos nameStr)
      ['.', '.'] sector2 rootCluster search = (FatCode.SUCCESS, c) := by
  have hill : pvt_CheckIllegalName ['.', '.'] = false := by decide
  have hne1 : (['.', '.'] : List Char) = ['.'] ↔ False := by
    simp only [iff_false]
    decide
  have key : pvt_SetCurrentDirectoryToParent
      (pvt_SetCurrentDirectoryToChild c sector1 pos nameStr) sector2 rootCluster
      = c := by
    obtain ⟨fc, csn, cln, cspp, clpp⟩ := c
    rcases hwf with ⟨hfc, hsn, hln, hsp, hlp⟩ | ⟨hfc, hnz, hsn, hsnf, hsp, hln, hlnf, hlp⟩
    · simp only at hfc hsn hln hsp hlp
      subst hfc hsn hln hsp hlp
      have hd0 : dotDotCluster sector2 = 0 := by simpa using hdot
      simp [pvt_SetCurrentDirectoryToParent, pvt_SetCurrentDirectoryToChild,
        hchild, hd0]
    · simp only at hfc hnz hsn hsnf hsp hln hlnf hlp
      have hd : dotDotCluster sector2 = fc := by
        rw [hdot]
        simp [hfc]
      have hheadS : ¬csn.head? = some '/' := by
        cases csn with
        | nil => simp
        | cons a t =>
            simp only [List.head?_cons, Option.some.injEq]
            intro ha
            exact hsnf (ha ▸ List.mem_cons_self a t)
      have hheadL : ¬cln.head? = some '/' := by
        cases cln with
        | nil => simp
        | cons a t =>
            simp only [List.head?_cons, Option.some.injEq]
            intro ha
            exact hlnf (ha ▸ List.mem_cons_self a t)
      simp only [pvt_SetCurrentDirectoryToChild, pvt_SetCurrentDirectoryToParent,
        hheadS, hheadL, ne_eq, not_false_eq_true, if_true, if_neg hchild,
        hd, hnz, if_false, ite_not]
      rw [List.dropLast_concat, List.dropLast_concat,
        afterLastSlash_append cspp csn hsp hsnf,
        afterLastSlash_append clpp cln hlp hlnf,
        throughLastSlash_append cspp csn hsp hsnf,
        throughLastSlash_append clpp cln hlp hlnf]
  simp [FAT_SetCurrentDirectory_model, hill, hne1, key]

/-- Directory sector for the roundtrip witness: the matched child's
short-name entry at offset 0 stores first cluster 5 (low byte at
offset 26). -/
def childSectorEx : Nat → Nat := fun i => if i = 26 then 5 else 0

theorem cd_child_then_parent_roundtrip_witness :
    FAT_SetCurrentDirectory_model
      (pvt_SetCurrentDirectoryToChild cursorRootEx childSectorEx 0 ['A'])
      ['.', '.'] (fun _ => 0) 2 (FatCode.END_OF_DIRECTORY, cursorRootEx) =
      (FatCode.SUCCESS, cursorRootEx) := by
  exact cd_child_then_parent_roundtrip cursorRootEx 2 childSectorEx 0 ['A']
    (fun _ => 0) (FatCode.END_OF_DIRECTORY, cursorRootEx)
    (by decide) (by decide) (Or.inl (by decide))

end AvrFat
